import Mathlib

/-!
Shallow embedding of the per-event optical-photon statistics aggregation and
boundary-classification logic of the alpha/beta contaminameter optical
simulation (files `OpticalSimulationSteppingAction.cc`,
`OpticalSimulationEventAction.cc`, `OpticalSimulationEventAction.hh`,
`OpticalSimulation.cc`).

Modelling conventions:
- C++ `float`/`double` quantities are embedded as `ℚ` (the claims under
  study involve only exact additive accounting and an exact division
  `1240 / E`, both faithfully represented in `ℚ`).
- `G4int` counters are embedded as `Int`; signed-integer overflow is
  undefined behaviour in C++, so the defined executions of the program are
  exactly those modelled by unbounded integers.
- `std::vector<T>::push_back` is embedded as appending to a `List`.
- `G4String` volume, particle and process names are embedded as `String`.
- Console output (`G4cout`) and the verbosity machinery have no effect on
  the statistics state and are not modelled.
-/

namespace OpticalSim

/-- Embeds `struct RunTallyInput` of `OpticalSimulationEventAction.hh`:
per-event input particle data.  `StatsInput = {}` in `BeginOfEventAction`
value-initializes every member to zero, which the default values model. -/
structure RunTallyInput where
  x : ℚ := 0
  xp : ℚ := 0
  y : ℚ := 0
  yp : ℚ := 0
  z : ℚ := 0
  zp : ℚ := 0
  energy : ℚ := 0
  deriving DecidableEq

/-- Embeds `struct RunTallyOptical` of `OpticalSimulationEventAction.hh`.
The C++ struct has no member initializers, but the only way an instance is
created in the program is `StatsOptical = {}` (value-initialization, all
members zeroed / empty), which the default values model. -/
structure RunTallyOptical where
  IncidentE : ℚ := 0
  DepositTotal : ℚ := 0
  DepositZnS : ℚ := 0
  DepositSc : ℚ := 0
  GeneratedTotal : Int := 0
  GeneratedZnS : Int := 0
  ScintillationZnS : Int := 0
  CerenkovZnS : Int := 0
  GeneratedSc : Int := 0
  ScintillationSc : Int := 0
  CerenkovSc : Int := 0
  BulkAbsTotal : Int := 0
  BulkAbsZnS : Int := 0
  BulkAbsSc : Int := 0
  Absorbed : Int := 0
  Escaped : Int := 0
  Failed : Int := 0
  Killed : Int := 0
  Detected : Int := 0
  ExitLightPositionX : List ℚ := []
  ExitLightPositionY : List ℚ := []
  ExitLightPositionZ : List ℚ := []
  DetectorPositionX : List ℚ := []
  DetectorPositionY : List ℚ := []
  DetectorPositionZ : List ℚ := []
  BirthWavelength : List ℚ := []
  BirthWavelengthDetected : List ℚ := []
  Time : List ℚ := []
  Rayleigh : List Int := []
  Total_Reflections : List Int := []
  Wrap_Reflections : List Int := []
  TotalLength : List ℚ := []
  Angle_creation : List ℚ := []
  Angle_detection : List ℚ := []
  FinalState : List Int := []
  deriving DecidableEq

/-- Embeds `struct RunTallySc` of `OpticalSimulationEventAction.hh`:
per-event charged-particle tally for one detector volume (ZnS or
Scintillator).  `AddParentID` receives a `G4float` that C++ converts to
`int` on `push_back`; the IDs are integral, so the parameter is embedded
as `Int` directly. -/
structure RunTallySc where
  x_entrance : List ℚ := []
  y_entrance : List ℚ := []
  z_entrance : List ℚ := []
  parentID : List Int := []
  particleID : List Int := []
  energy : List ℚ := []
  deposited_energy : ℚ := 0
  deposited_energy_event : ℚ := 0
  total_deposited_energy : List ℚ := []
  flag : Bool := false
  deriving DecidableEq

/-- The values of `G4OpBoundaryProcessStatus` that
`CheckBoundaryStatus` switches on; every other enumerator falls into the
switch's `default:` branch, modelled by `OtherStatus`. -/
inductive BoundaryStatus where
  | Detection
  | Absorption
  | Undefined
  | NoRINDEX
  | LambertianReflection
  | FresnelRefraction
  | FresnelReflection
  | LobeReflection
  | SpikeReflection
  | TotalInternalReflection
  | OtherStatus
  deriving DecidableEq

/-- The post-step `G4StepStatus` values relevant to the stepping action:
the code only compares the status against `fGeomBoundary`. -/
inductive StepStatus where
  | fGeomBoundary
  | fPostStepDoIt
  | fAlongStepDoIt
  | fOtherStep
  deriving DecidableEq

/-- `G4TrackStatus` values used by the stepping action. -/
inductive TrackStatus where
  | fAlive
  | fStopAndKill
  deriving DecidableEq

/-- The per-step data extracted from the `G4Step` by
`UserSteppingAction` that feeds the optical-photon logic.  Each field
mirrors one extraction in `OpticalSimulationSteppingAction.cc`. -/
structure StepData where
  /-- `theTrack->GetDefinition()->GetParticleName()` -/
  particleName : String
  /-- `post->GetProcessDefinedStep()->GetProcessName()` -/
  endproc : String
  /-- `theTrack->GetParentID()` -/
  parentID : Int
  /-- `theTrack->GetCurrentStepNumber()` -/
  stepNo : Int
  /-- `pre->GetPhysicalVolume()->GetName()` -/
  volumeNamePreStep : String
  /-- `post->GetPhysicalVolume()->GetName()` -/
  volumeNamePostStep : String
  /-- `theTrack->GetNextVolume()->GetName()` -/
  nextVolumeName : String
  /-- `aStep->GetPostStepPoint()->GetStepStatus()` -/
  stepStatus : StepStatus
  /-- `boundary->GetStatus()` of the `OpBoundary` process -/
  boundaryStatus : BoundaryStatus
  /-- `theTrack->GetCreatorProcess()->GetProcessName()` -/
  creatorProcess : String
  /-- post-step position `postStep.x`, `postStep.y`, `postStep.z` (mm) -/
  postX : ℚ
  postY : ℚ
  postZ : ℚ
  /-- `theTrack->GetTotalEnergy() / eV` -/
  totalEnergy_eV : ℚ
  /-- `aStep->GetPostStepPoint()->GetGlobalTime() / ns` -/
  globalTime_ns : ℚ
  /-- `aStep->GetTrack()->GetTrackLength()` -/
  trackLength : ℚ
  /-- `angle / deg` as computed at the top of `UserSteppingAction` -/
  angle_deg : ℚ
  deriving DecidableEq

/-- Embeds `OpticalSimulationSteppingAction::CheckBoundaryStatus`
(`OpticalSimulationSteppingAction.cc`, lines 68-208) as a transformer on
the per-event optical tally.  Two independent conditionals: first the
bulk-absorption accounting on `endproc == "OpAbsorption"`, then the
boundary-status switch guarded by
`GetStepStatus() == fGeomBoundary`.  The `OpRayleigh` branch and every
reflection / `Undefined` / `default` case only print and leave the tally
unchanged. -/
def checkBoundaryStatus (d : StepData) (s : RunTallyOptical) :
    RunTallyOptical :=
  let s1 :=
    if d.endproc = "OpAbsorption" then
      if d.volumeNamePreStep = "ZnS" then
        { s with BulkAbsZnS := s.BulkAbsZnS + 1 }
      else
        { s with BulkAbsSc := s.BulkAbsSc + 1 }
    else s
  if d.stepStatus = StepStatus.fGeomBoundary then
    match d.boundaryStatus with
    | BoundaryStatus.Detection =>
        { s1 with
          Detected := s1.Detected + 1
          DetectorPositionX := s1.DetectorPositionX ++ [d.postX]
          DetectorPositionY := s1.DetectorPositionY ++ [d.postY]
          DetectorPositionZ := s1.DetectorPositionZ ++ [d.postZ]
          BirthWavelengthDetected :=
            s1.BirthWavelengthDetected ++ [1240 / d.totalEnergy_eV]
          Time := s1.Time ++ [d.globalTime_ns]
          TotalLength := s1.TotalLength ++ [d.trackLength] }
    | BoundaryStatus.Absorption =>
        if d.nextVolumeName = "Photocathode" then
          { s1 with Failed := s1.Failed + 1 }
        else
          { s1 with Absorbed := s1.Absorbed + 1 }
    | BoundaryStatus.NoRINDEX =>
        { s1 with Escaped := s1.Escaped + 1 }
    | _ => s1
  else s1

/-- Embeds `OpticalSimulationSteppingAction::CountScintillation`: two
independent checks of the pre-step volume name. -/
def countScintillation (d : StepData) (s : RunTallyOptical) :
    RunTallyOptical :=
  let s1 :=
    if d.volumeNamePreStep = "ZnS" then
      { s with ScintillationZnS := s.ScintillationZnS + 1 }
    else s
  if d.volumeNamePreStep = "Scintillator" then
    { s1 with ScintillationSc := s1.ScintillationSc + 1 }
  else s1

/-- Embeds `OpticalSimulationSteppingAction::CountCerenkov`. -/
def countCerenkov (d : StepData) (s : RunTallyOptical) :
    RunTallyOptical :=
  let s1 :=
    if d.volumeNamePreStep = "ZnS" then
      { s with CerenkovZnS := s.CerenkovZnS + 1 }
    else s
  if d.volumeNamePreStep = "Scintillator" then
    { s1 with CerenkovSc := s1.CerenkovSc + 1 }
  else s1

/-- Embeds `OpticalSimulationSteppingAction::SetPhotonBirthInformation`:
appends the creation angle (in degrees) and the birth wavelength
`1240 / (E_total / eV)` to the creation sequences. -/
def setPhotonBirthInformation (d : StepData) (s : RunTallyOptical) :
    RunTallyOptical :=
  { s with
    Angle_creation := s.Angle_creation ++ [d.angle_deg]
    BirthWavelength := s.BirthWavelength ++ [1240 / d.totalEnergy_eV] }

/-- Embeds the optical-photon portion and the track-termination policy of
`OpticalSimulationSteppingAction::UserSteppingAction`
(`OpticalSimulationSteppingAction.cc`, lines 302-442), as a transformer on
the per-event optical tally paired with the resulting track status.

For optical photons: if `PhotonTrackStatus == false` the Killed counter is
incremented and the track is marked `fStopAndKill`, otherwise
`CheckBoundaryStatus` runs; in either case, on the track's first step
(`stepNo == 1`) the birth information is recorded and the creation
counters are updated according to the creator process.  Finally, for every
particle, a post-step volume named `"World"` forces `fStopAndKill`.

The charged-particle branch (`UpdateSc`, modelled separately as
`updateSc`) and `SetInputInformations` touch only `StatsZnS` /
`StatsScintillator` / `StatsInput`, never the optical tally or the track
status, so they are outside this transformer's state. -/
def userSteppingAction (d : StepData) (photonTrackStatus : Bool)
    (s : RunTallyOptical) : RunTallyOptical × TrackStatus :=
  let sAfterPhoton :=
    if d.particleName = "opticalphoton" then
      let sA :=
        if photonTrackStatus = false then
          { s with Killed := s.Killed + 1 }
        else
          checkBoundaryStatus d s
      if d.stepNo = 1 then
        let sB := setPhotonBirthInformation d sA
        let sC :=
          if d.creatorProcess = "Scintillation" then
            countScintillation d sB
          else sB
        if d.creatorProcess = "Cerenkov" then countCerenkov d sC else sC
      else sA
    else s
  let statusAfterPhoton :=
    if d.particleName = "opticalphoton" ∧ photonTrackStatus = false then
      TrackStatus.fStopAndKill
    else TrackStatus.fAlive
  let finalStatus :=
    if d.volumeNamePostStep = "World" then TrackStatus.fStopAndKill
    else statusAfterPhoton
  (sAfterPhoton, finalStatus)

/-- Embeds the free function `UpdateSc`
(`OpticalSimulationSteppingAction.cc`, lines 264-291), the per-step update
of one charged-particle detector tally.  The trailing `trackingStatus` and
`track` parameters of the C++ function are unused by its body; the unused
`G4Track*` has no counterpart here. -/
def updateSc (tally : RunTallySc) (x y z energy energyDeposited
    energy_post : ℚ) (parentID particleID : Int)
    (volumeNamePostStep : String) (_trackingStatus : Bool) : RunTallySc :=
  -- If this is the first step for this particle in this tally
  let t1 :=
    if tally.flag then tally
    else
      { tally with
        x_entrance := tally.x_entrance ++ [x]
        y_entrance := tally.y_entrance ++ [y]
        z_entrance := tally.z_entrance ++ [z]
        parentID := tally.parentID ++ [parentID]
        particleID := tally.particleID ++ [particleID]
        energy := tally.energy ++ [energy]
        flag := true }
  -- Add energy deposited for this step
  let t2 :=
    { t1 with
      deposited_energy := t1.deposited_energy + energyDeposited
      deposited_energy_event := t1.deposited_energy_event + energyDeposited }
  -- If particle reached holder volume or lost all energy
  if volumeNamePostStep = "Holder" ∨ energy_post = 0 then
    { t2 with
      total_deposited_energy :=
        t2.total_deposited_energy ++ [t2.deposited_energy]
      deposited_energy := 0
      flag := false }
  else t2

/-- The optical tally produced by
`OpticalSimulationEventAction::BeginOfEventAction`: `StatsOptical = {}`. -/
def resetOptical : RunTallyOptical := {}

/-- The input tally produced by `BeginOfEventAction`: `StatsInput = {}`. -/
def resetInput : RunTallyInput := {}

/-- The detector tally produced by `BeginOfEventAction`:
`StatsZnS = {}` / `StatsScintillator = {}`. -/
def resetSc : RunTallySc := {}

/-- Embeds the body of the guarded derivation block of
`OpticalSimulationEventAction::EndOfEventAction`
(`OpticalSimulationEventAction.cc`, lines 86-99): the sequential
assignments of the derived scalars of `StatsOptical` from `StatsInput`,
`StatsZnS` and `StatsScintillator`.  `GeneratedTotal` is assigned after
`GeneratedSc` and `GeneratedZnS`, so it receives their fresh values. -/
def deriveOptical (input : RunTallyInput) (zns sc : RunTallySc)
    (s : RunTallyOptical) : RunTallyOptical :=
  { s with
    IncidentE := input.energy
    DepositTotal := sc.deposited_energy_event + zns.deposited_energy_event
    DepositSc := sc.deposited_energy_event
    DepositZnS := zns.deposited_energy_event
    GeneratedSc := s.ScintillationSc + s.CerenkovSc
    GeneratedZnS := s.ScintillationZnS + s.CerenkovZnS
    GeneratedTotal := (s.ScintillationSc + s.CerenkovSc) +
      (s.ScintillationZnS + s.CerenkovZnS)
    BulkAbsTotal := s.BulkAbsSc + s.BulkAbsZnS }

/-- The guard `StatsOptical.ScintillationSc < 0` of `EndOfEventAction`'s
derivation block.  The percentage-fraction divisions by `GeneratedTotal`
(lines 101-113 of `OpticalSimulationEventAction.cc`) execute exactly when
this guard holds. -/
def fractionDivisionExecutes (s : RunTallyOptical) : Prop :=
  s.ScintillationSc < 0

instance (s : RunTallyOptical) : Decidable (fractionDivisionExecutes s) :=
  inferInstanceAs (Decidable (s.ScintillationSc < 0))

/-- Embeds the effect of
`OpticalSimulationEventAction::EndOfEventAction` on `StatsOptical`: the
derivation block (and the fraction computations it contains) runs only
under the guard `ScintillationSc < 0`, and the resulting record is the one
handed to `RunAction::UpdateStatisticsOptical`. -/
def endOfEventOptical (input : RunTallyInput) (zns sc : RunTallySc)
    (s : RunTallyOptical) : RunTallyOptical :=
  if s.ScintillationSc < 0 then deriveOptical input zns sc s else s

/-- The mutating member functions of `OpticalSimulationEventAction` that
touch `StatsOptical` and are reachable between `BeginOfEventAction` and
`EndOfEventAction` (declared in `OpticalSimulationEventAction.hh`,
lines 181-244). -/
inductive OpticalOp where
  | countCerenkovZnS
  | countCerenkovSc
  | countScintillationZnS
  | countScintillationSc
  | countKilled
  | countDetected
  | countAbsorbed
  | countBulkAbsSc
  | countBulkAbsZnS
  | countEscaped
  | countFailed
  | fillPhotonExitLightPositionX (e : ℚ)
  | fillPhotonExitLightPositionY (e : ℚ)
  | fillPhotonExitLightPositionZ (e : ℚ)
  | fillPhotonDetectorPositionX (e : ℚ)
  | fillPhotonDetectorPositionY (e : ℚ)
  | fillPhotonDetectorPositionZ (e : ℚ)
  | fillPhotonFinalState (e : Int)
  | fillBirthWavelength (e : ℚ)
  | fillBirthWavelengthDetected (e : ℚ)
  | fillPhotonTime (e : ℚ)
  | fillRayleigh (e : Int)
  | fillTotalReflections (e : Int)
  | fillWrapReflecions (e : Int)
  | fillPhotonTotalLength (e : ℚ)
  | fillFiberAngleCreation (e : ℚ)
  | fillFiberAngleDetection (e : ℚ)
  deriving DecidableEq

/-- The effect of one `OpticalSimulationEventAction` mutator on
`StatsOptical`, member by member as written in the header. -/
def applyOp (s : RunTallyOptical) : OpticalOp → RunTallyOptical
  | OpticalOp.countCerenkovZnS => { s with CerenkovZnS := s.CerenkovZnS + 1 }
  | OpticalOp.countCerenkovSc => { s with CerenkovSc := s.CerenkovSc + 1 }
  | OpticalOp.countScintillationZnS =>
      { s with ScintillationZnS := s.ScintillationZnS + 1 }
  | OpticalOp.countScintillationSc =>
      { s with ScintillationSc := s.ScintillationSc + 1 }
  | OpticalOp.countKilled => { s with Killed := s.Killed + 1 }
  | OpticalOp.countDetected => { s with Detected := s.Detected + 1 }
  | OpticalOp.countAbsorbed => { s with Absorbed := s.Absorbed + 1 }
  | OpticalOp.countBulkAbsSc => { s with BulkAbsSc := s.BulkAbsSc + 1 }
  | OpticalOp.countBulkAbsZnS => { s with BulkAbsZnS := s.BulkAbsZnS + 1 }
  | OpticalOp.countEscaped => { s with Escaped := s.Escaped + 1 }
  | OpticalOp.countFailed => { s with Failed := s.Failed + 1 }
  | OpticalOp.fillPhotonExitLightPositionX e =>
      { s with ExitLightPositionX := s.ExitLightPositionX ++ [e] }
  | OpticalOp.fillPhotonExitLightPositionY e =>
      { s with ExitLightPositionY := s.ExitLightPositionY ++ [e] }
  | OpticalOp.fillPhotonExitLightPositionZ e =>
      { s with ExitLightPositionZ := s.ExitLightPositionZ ++ [e] }
  | OpticalOp.fillPhotonDetectorPositionX e =>
      { s with DetectorPositionX := s.DetectorPositionX ++ [e] }
  | OpticalOp.fillPhotonDetectorPositionY e =>
      { s with DetectorPositionY := s.DetectorPositionY ++ [e] }
  | OpticalOp.fillPhotonDetectorPositionZ e =>
      { s with DetectorPositionZ := s.DetectorPositionZ ++ [e] }
  | OpticalOp.fillPhotonFinalState e =>
      { s with FinalState := s.FinalState ++ [e] }
  | OpticalOp.fillBirthWavelength e =>
      { s with BirthWavelength := s.BirthWavelength ++ [e] }
  | OpticalOp.fillBirthWavelengthDetected e =>
      { s with BirthWavelengthDetected := s.BirthWavelengthDetected ++ [e] }
  | OpticalOp.fillPhotonTime e => { s with Time := s.Time ++ [e] }
  | OpticalOp.fillRayleigh e => { s with Rayleigh := s.Rayleigh ++ [e] }
  | OpticalOp.fillTotalReflections e =>
      { s with Total_Reflections := s.Total_Reflections ++ [e] }
  | OpticalOp.fillWrapReflecions e =>
      { s with Wrap_Reflections := s.Wrap_Reflections ++ [e] }
  | OpticalOp.fillPhotonTotalLength e =>
      { s with TotalLength := s.TotalLength ++ [e] }
  | OpticalOp.fillFiberAngleCreation e =>
      { s with Angle_creation := s.Angle_creation ++ [e] }
  | OpticalOp.fillFiberAngleDetection e =>
      { s with Angle_detection := s.Angle_detection ++ [e] }

/-- Applies a sequence of `OpticalSimulationEventAction` mutators in
order. -/
def applyOps (s : RunTallyOptical) (ops : List OpticalOp) :
    RunTallyOptical :=
  ops.foldl applyOp s

/-- The optical tallies reachable from the `BeginOfEventAction` reset via
the event action's mutators. -/
def ReachableOptical (s : RunTallyOptical) : Prop :=
  ∃ ops : List OpticalOp, applyOps resetOptical ops = s

/-- Total number of increments, across one call, of the six terminal
counters named by the boundary classifier (Detected, surface Absorbed,
BulkAbsZnS, BulkAbsSc, Escaped, Failed).  Each branch of
`checkBoundaryStatus` changes each counter by 0 or +1, so this sum counts
how many terminal counters one invocation incremented. -/
def terminalIncrements (s t : RunTallyOptical) : Int :=
  (t.Detected - s.Detected) + (t.Absorbed - s.Absorbed) +
    (t.BulkAbsZnS - s.BulkAbsZnS) + (t.BulkAbsSc - s.BulkAbsSc) +
    (t.Escaped - s.Escaped) + (t.Failed - s.Failed)

/-- Outcome of the command-line handling in `main`
(`OpticalSimulation.cc`, lines 12-46).  `missingArgs` is the
`argc < 2` path: it raises a `FatalException` and carries `return 1`.
`fatalMT` / `fatalArgCount` are the two other `G4Exception` calls.
`batch` records the accepted configuration: output file, event count and
macro file strings and the MT flag, plus the explicit thread-count
argument when present (read only when `argc == 6`). -/
inductive MainOutcome where
  | missingArgs
  | visMode (outputFile : String)
  | batch (outputFile nEvents macroFile : String) (mt : Bool)
      (threads : Option String)
  | fatalMT
  | fatalArgCount
  deriving DecidableEq

/-- Embeds the argument dispatch of `main` (`OpticalSimulation.cc`,
lines 12-46) over the argument vector (so `argv.length` is `argc`, with
`argv[0]` the program name). -/
def parseCmdLine (argv : List String) : MainOutcome :=
  if argv.length < 2 then MainOutcome.missingArgs
  else if argv.length = 2 then MainOutcome.visMode (argv.getD 1 "")
  else if 5 ≤ argv.length then
    let pMT := argv.getD 4 ""
    if pMT = "ON" then
      MainOutcome.batch (argv.getD 1 "") (argv.getD 2 "") (argv.getD 3 "")
        true (if argv.length = 6 then some (argv.getD 5 "") else none)
    else if pMT = "OFF" then
      MainOutcome.batch (argv.getD 1 "") (argv.getD 2 "") (argv.getD 3 "")
        false none
    else MainOutcome.fatalMT
  else MainOutcome.fatalArgCount

/-- Whether the outcome raised a `G4Exception(..., FatalException, ...)`
(which the toolkit's default handler turns into a process abort). -/
def raisesFatalException : MainOutcome → Bool
  | MainOutcome.missingArgs => true
  | MainOutcome.fatalMT => true
  | MainOutcome.fatalArgCount => true
  | _ => false

/-- The explicit `return` code `main` executes on the given outcome, when
control reaches a `return` statement on that path (`return 1` on the
missing-argument path, `return 0` at the end of a completed run). -/
def mainReturnCode : MainOutcome → Int
  | MainOutcome.missingArgs => 1
  | _ => 0

/-- A concrete optical-photon step used to instantiate the theorems:
a photon created by scintillation in the Scintillator volume, on an
ordinary interior step. -/
def baseStep : StepData where
  particleName := "opticalphoton"
  endproc := "Transportation"
  parentID := 1
  stepNo := 2
  volumeNamePreStep := "Scintillator"
  volumeNamePostStep := "Scintillator"
  nextVolumeName := "Scintillator"
  stepStatus := StepStatus.fPostStepDoIt
  boundaryStatus := BoundaryStatus.Undefined
  creatorProcess := "Scintillation"
  postX := 1
  postY := 2
  postZ := 3
  totalEnergy_eV := 4
  globalTime_ns := 7
  trackLength := 9
  angle_deg := 30

/-- The eight fields of `RunTallyOptical` that only the guarded derivation
block of `EndOfEventAction` ever assigns, all still carrying their
`BeginOfEventAction` reset value of zero. -/
def derivedFieldsZero (s : RunTallyOptical) : Prop :=
  s.IncidentE = 0 ∧ s.DepositTotal = 0 ∧ s.DepositZnS = 0 ∧
    s.DepositSc = 0 ∧ s.GeneratedSc = 0 ∧ s.GeneratedZnS = 0 ∧
    s.GeneratedTotal = 0 ∧ s.BulkAbsTotal = 0

/-- Claim C3: after the finalization derivation of `EndOfEventAction`
runs, `GeneratedTotal` equals
`ScintillationZnS + CerenkovZnS + ScintillationSc + CerenkovSc`, for every
sequence of creation-counting (and other mutator) calls applied since the
event reset. -/
theorem generatedTotal_eq_creation_sum (ops : List OpticalOp)
    (input : RunTallyInput) (zns sc : RunTallySc) :
    (deriveOptical input zns sc (applyOps resetOptical ops)).GeneratedTotal =
      (applyOps resetOptical ops).ScintillationZnS +
        (applyOps resetOptical ops).CerenkovZnS +
        (applyOps resetOptical ops).ScintillationSc +
        (applyOps resetOptical ops).CerenkovSc := by
  simp only [deriveOptical]
  ring

/-- Claim C4: for every boundary-crossing step whose boundary outcome is
`Absorption`, the Failed ("transmitted") counter is incremented when the
photon's next volume is the photocathode, and the surface-Absorbed counter
is incremented otherwise; exactly one of the two changes. -/
theorem absorption_routes_failed_or_surface (d : StepData)
    (s : RunTallyOptical) (hb : d.stepStatus = StepStatus.fGeomBoundary)
    (ha : d.boundaryStatus = BoundaryStatus.Absorption) :
    (d.nextVolumeName = "Photocathode" →
      (checkBoundaryStatus d s).Failed = s.Failed + 1 ∧
        (checkBoundaryStatus d s).Absorbed = s.Absorbed) ∧
    (d.nextVolumeName ≠ "Photocathode" →
      (checkBoundaryStatus d s).Absorbed = s.Absorbed + 1 ∧
        (checkBoundaryStatus d s).Failed = s.Failed) := by
  unfold checkBoundaryStatus
  rw [hb, ha]
  constructor <;> intro hv <;> split_ifs <;> simp_all

/-- Witness for claim C4 at a concrete boundary-absorption step with the
photocathode as next volume. -/
theorem absorption_routes_failed_or_surface_witness :
    ({ baseStep with
        stepStatus := StepStatus.fGeomBoundary
        boundaryStatus := BoundaryStatus.Absorption
        nextVolumeName := "Photocathode" } : StepData).nextVolumeName =
        "Photocathode" ∧
      (checkBoundaryStatus
          { baseStep with
            stepStatus := StepStatus.fGeomBoundary
            boundaryStatus := BoundaryStatus.Absorption
            nextVolumeName := "Photocathode" } resetOptical).Failed =
        resetOptical.Failed + 1 := by
  refine ⟨rfl, ?_⟩
  exact ((absorption_routes_failed_or_surface
    { baseStep with
      stepStatus := StepStatus.fGeomBoundary
      boundaryStatus := BoundaryStatus.Absorption
      nextVolumeName := "Photocathode" } resetOptical rfl rfl).1 rfl).1

/-- Claim C5: for every boundary-crossing step whose boundary outcome is
`Detection`, the Detected counter is incremented by one and exactly one
element is appended to each of the detector-position, detected-birth-
wavelength, detection-time and total-track-length sequences, with the
appended wavelength equal to `1240 / E(eV)`. -/
theorem detection_appends_sequences (d : StepData) (s : RunTallyOptical)
    (hb : d.stepStatus = StepStatus.fGeomBoundary)
    (hs : d.boundaryStatus = BoundaryStatus.Detection) :
    (checkBoundaryStatus d s).Detected = s.Detected + 1 ∧
    (checkBoundaryStatus d s).DetectorPositionX =
      s.DetectorPositionX ++ [d.postX] ∧
    (checkBoundaryStatus d s).DetectorPositionY =
      s.DetectorPositionY ++ [d.postY] ∧
    (checkBoundaryStatus d s).DetectorPositionZ =
      s.DetectorPositionZ ++ [d.postZ] ∧
    (checkBoundaryStatus d s).BirthWavelengthDetected =
      s.BirthWavelengthDetected ++ [1240 / d.totalEnergy_eV] ∧
    (checkBoundaryStatus d s).Time = s.Time ++ [d.globalTime_ns] ∧
    (checkBoundaryStatus d s).TotalLength =
      s.TotalLength ++ [d.trackLength] := by
  unfold checkBoundaryStatus
  rw [hb, hs]
  split_ifs <;> simp_all

/-- Witness for claim C5 at a concrete detection step. -/
theorem detection_appends_sequences_witness :
    (checkBoundaryStatus
        { baseStep with
          stepStatus := StepStatus.fGeomBoundary
          boundaryStatus := BoundaryStatus.Detection } resetOptical).Detected =
      resetOptical.Detected + 1 ∧
    (checkBoundaryStatus
        { baseStep with
          stepStatus := StepStatus.fGeomBoundary
          boundaryStatus := BoundaryStatus.Detection }
        resetOptical).BirthWavelengthDetected =
      resetOptical.BirthWavelengthDetected ++ [1240 / 4] :=
  ⟨(detection_appends_sequences
      { baseStep with
        stepStatus := StepStatus.fGeomBoundary
        boundaryStatus := BoundaryStatus.Detection } resetOptical rfl rfl).1,
   (detection_appends_sequences
      { baseStep with
        stepStatus := StepStatus.fGeomBoundary
        boundaryStatus := BoundaryStatus.Detection } resetOptical rfl
      rfl).2.2.2.2.1⟩

/-- Claim C6: an event reset followed immediately by event finalization
with zero recorded photons leaves generated-total 0, emits the reset
record unchanged, and the guarded fraction divisions by generated-total
never execute. -/
theorem finalize_after_reset_is_safe (input : RunTallyInput)
    (zns sc : RunTallySc) :
    endOfEventOptical input zns sc resetOptical = resetOptical ∧
      (endOfEventOptical input zns sc resetOptical).GeneratedTotal = 0 ∧
      ¬ fractionDivisionExecutes resetOptical := by
  refine ⟨?_, ?_, ?_⟩ <;>
    simp [endOfEventOptical, fractionDivisionExecutes, resetOptical]

/-- Claim C9: every step of every particle whose post-step volume name is
the world volume name leaves the track with status stop-and-kill,
regardless of particle kind, tracking flag or tally state. -/
theorem world_volume_kills_track (d : StepData) (photonTrackStatus : Bool)
    (s : RunTallyOptical) (h : d.volumeNamePostStep = "World") :
    (userSteppingAction d photonTrackStatus s).2 =
      TrackStatus.fStopAndKill := by
  simp [userSteppingAction, h]

/-- Witness for claim C9: a charged particle stepping into the world
volume is killed. -/
theorem world_volume_kills_track_witness :
    (userSteppingAction
        { baseStep with particleName := "e-", volumeNamePostStep := "World" }
        true resetOptical).2 = TrackStatus.fStopAndKill :=
  world_volume_kills_track
    { baseStep with particleName := "e-", volumeNamePostStep := "World" }
    true resetOptical rfl

/-- Claim C2: per-step episode accounting of `UpdateSc`.  First part:
on the first step of an episode (flag clear) the entry position, parent
ID, particle ID and entry energy are appended (and on later steps they
are not); every step adds the deposited energy to both accumulators; the
episode closes — the per-episode total is appended once, the per-episode
accumulator resets and the flag clears — exactly when the post-step
volume is the holder volume or the post-step kinetic energy is zero.
Second part: the concrete scenario of a particle depositing 5 units over
3 steps and then exiting to the holder yields exactly one appended
episode total of 5, and a re-entry in the same event opens a second
independent episode. -/
theorem updateSc_episode_accounting :
    (∀ (tally : RunTallySc) (x y z en ed ep : ℚ) (par pid : Int)
        (vol : String) (ts : Bool),
      (tally.flag = false →
        (updateSc tally x y z en ed ep par pid vol ts).x_entrance =
          tally.x_entrance ++ [x] ∧
        (updateSc tally x y z en ed ep par pid vol ts).y_entrance =
          tally.y_entrance ++ [y] ∧
        (updateSc tally x y z en ed ep par pid vol ts).z_entrance =
          tally.z_entrance ++ [z] ∧
        (updateSc tally x y z en ed ep par pid vol ts).parentID =
          tally.parentID ++ [par] ∧
        (updateSc tally x y z en ed ep par pid vol ts).particleID =
          tally.particleID ++ [pid] ∧
        (updateSc tally x y z en ed ep par pid vol ts).energy =
          tally.energy ++ [en]) ∧
      (tally.flag = true →
        (updateSc tally x y z en ed ep par pid vol ts).x_entrance =
          tally.x_entrance ∧
        (updateSc tally x y z en ed ep par pid vol ts).energy =
          tally.energy) ∧
      (updateSc tally x y z en ed ep par pid vol ts).deposited_energy_event =
        tally.deposited_energy_event + ed ∧
      (vol = "Holder" ∨ ep = 0 →
        (updateSc tally x y z en ed ep par pid vol
            ts).total_deposited_energy =
          tally.total_deposited_energy ++ [tally.deposited_energy + ed] ∧
        (updateSc tally x y z en ed ep par pid vol ts).deposited_energy =
          0 ∧
        (updateSc tally x y z en ed ep par pid vol ts).flag = false) ∧
      (¬(vol = "Holder" ∨ ep = 0) →
        (updateSc tally x y z en ed ep par pid vol
            ts).total_deposited_energy = tally.total_deposited_energy ∧
        (updateSc tally x y z en ed ep par pid vol ts).deposited_energy =
          tally.deposited_energy + ed ∧
        (updateSc tally x y z en ed ep par pid vol ts).flag = true)) ∧
    ((updateSc (updateSc (updateSc resetSc 1 1 1 10 2 8 0 11
          "Scintillator" true) 1 1 1 10 2 6 0 11 "Scintillator" true)
        1 1 1 10 1 5 0 11 "Holder" true).total_deposited_energy = [5] ∧
      (updateSc (updateSc (updateSc resetSc 1 1 1 10 2 8 0 11
          "Scintillator" true) 1 1 1 10 2 6 0 11 "Scintillator" true)
        1 1 1 10 1 5 0 11 "Holder" true).flag = false ∧
      (updateSc (updateSc (updateSc (updateSc resetSc 1 1 1 10 2 8 0 11
            "Scintillator" true) 1 1 1 10 2 6 0 11 "Scintillator" true)
          1 1 1 10 1 5 0 11 "Holder" true) 2 2 2 4 3 1 0 11
        "Scintillator" true).flag = true ∧
      (updateSc (updateSc (updateSc (updateSc resetSc 1 1 1 10 2 8 0 11
            "Scintillator" true) 1 1 1 10 2 6 0 11 "Scintillator" true)
          1 1 1 10 1 5 0 11 "Holder" true) 2 2 2 4 3 1 0 11
        "Scintillator" true).x_entrance = [1, 2]) := by
  constructor
  · intro tally x y z en ed ep par pid vol ts
    refine ⟨?_, ?_, ?_, ?_, ?_⟩ <;>
      · intros
        unfold updateSc
        split_ifs <;> simp_all
  · have hsh : ¬ ("Scintillator" = "Holder") := by decide
    norm_num [updateSc, resetSc, hsh]

/-- Witness for claim C2: the general episode-accounting part applied on
the reset tally at a concrete closing step. -/
theorem updateSc_episode_accounting_witness :
    (updateSc resetSc 1 1 1 10 5 0 0 11 "Scintillator"
        true).total_deposited_energy = resetSc.total_deposited_energy ++
      [resetSc.deposited_energy + 5] ∧
    (updateSc resetSc 1 1 1 10 5 0 0 11 "Scintillator" true).flag =
      false :=
  ⟨((updateSc_episode_accounting.1 resetSc 1 1 1 10 5 0 0 11
      "Scintillator" true).2.2.2.1 (Or.inr rfl)).1,
   ((updateSc_episode_accounting.1 resetSc 1 1 1 10 5 0 0 11
      "Scintillator" true).2.2.2.1 (Or.inr rfl)).2.2⟩

/-- One event-action mutator preserves non-negativity of the
scintillation counter and leaves the derivation-block fields at their
reset value. -/
theorem applyOp_inv (s : RunTallyOptical) (op : OpticalOp)
    (h : 0 ≤ s.ScintillationSc ∧ derivedFieldsZero s) :
    0 ≤ (applyOp s op).ScintillationSc ∧
      derivedFieldsZero (applyOp s op) := by
  obtain ⟨h1, h2⟩ := h
  cases op <;> first
    | (simp_all [applyOp, derivedFieldsZero]; omega)
    | simp_all [applyOp, derivedFieldsZero]

/-- Every sequence of event-action mutators preserves the invariant of
`applyOp_inv`. -/
theorem applyOps_inv (ops : List OpticalOp) :
    ∀ s : RunTallyOptical,
      0 ≤ s.ScintillationSc ∧ derivedFieldsZero s →
      0 ≤ (applyOps s ops).ScintillationSc ∧
        derivedFieldsZero (applyOps s ops) := by
  induction ops with
  | nil => intro s h; simpa [applyOps] using h
  | cons op rest ih =>
      intro s h
      simpa [applyOps, List.foldl] using
        ih (applyOp s op) (applyOp_inv s op h)

/-- Claim C7: in every optical tally reachable from the
`BeginOfEventAction` reset via the counting operations,
`ScintillationSc` is non-negative, so the `ScintillationSc < 0` guard of
`EndOfEventAction` never fires, the derivation block never executes, and
the record emitted to the run-level reducer carries the derived fields
(IncidentE, DepositTotal, DepositZnS, DepositSc, GeneratedSc,
GeneratedZnS, GeneratedTotal, BulkAbsTotal) at their reset value of
zero. -/
theorem reachable_never_triggers_derivation (s : RunTallyOptical)
    (input : RunTallyInput) (zns sc : RunTallySc)
    (h : ReachableOptical s) :
    0 ≤ s.ScintillationSc ∧
    ¬ fractionDivisionExecutes s ∧
    endOfEventOptical input zns sc s = s ∧
    s.IncidentE = 0 ∧ s.DepositTotal = 0 ∧ s.DepositZnS = 0 ∧
    s.DepositSc = 0 ∧ s.GeneratedSc = 0 ∧ s.GeneratedZnS = 0 ∧
    s.GeneratedTotal = 0 ∧ s.BulkAbsTotal = 0 := by
  obtain ⟨ops, rfl⟩ := h
  have hbase : 0 ≤ resetOptical.ScintillationSc ∧
      derivedFieldsZero resetOptical := by
    constructor
    · simp [resetOptical]
    · simp [derivedFieldsZero, resetOptical]
  obtain ⟨h1, h2⟩ := applyOps_inv ops resetOptical hbase
  obtain ⟨e1, e2, e3, e4, e5, e6, e7, e8⟩ := h2
  refine ⟨h1, ?_, ?_, e1, e2, e3, e4, e5, e6, e7, e8⟩
  · simp only [fractionDivisionExecutes]
    omega
  · simp only [endOfEventOptical]
    rw [if_neg (by omega)]

/-- Witness for claim C7 on the tally obtained by counting one
scintillation photon and one detected photon after the reset. -/
theorem reachable_never_triggers_derivation_witness :
    0 ≤ (applyOps resetOptical
        [OpticalOp.countScintillationSc,
          OpticalOp.countDetected]).ScintillationSc ∧
    ¬ fractionDivisionExecutes (applyOps resetOptical
        [OpticalOp.countScintillationSc, OpticalOp.countDetected]) ∧
    endOfEventOptical resetInput resetSc resetSc
        (applyOps resetOptical
          [OpticalOp.countScintillationSc, OpticalOp.countDetected]) =
      applyOps resetOptical
        [OpticalOp.countScintillationSc, OpticalOp.countDetected] ∧
    (applyOps resetOptical [OpticalOp.countScintillationSc,
        OpticalOp.countDetected]).IncidentE = 0 ∧
    (applyOps resetOptical [OpticalOp.countScintillationSc,
        OpticalOp.countDetected]).DepositTotal = 0 ∧
    (applyOps resetOptical [OpticalOp.countScintillationSc,
        OpticalOp.countDetected]).DepositZnS = 0 ∧
    (applyOps resetOptical [OpticalOp.countScintillationSc,
        OpticalOp.countDetected]).DepositSc = 0 ∧
    (applyOps resetOptical [OpticalOp.countScintillationSc,
        OpticalOp.countDetected]).GeneratedSc = 0 ∧
    (applyOps resetOptical [OpticalOp.countScintillationSc,
        OpticalOp.countDetected]).GeneratedZnS = 0 ∧
    (applyOps resetOptical [OpticalOp.countScintillationSc,
        OpticalOp.countDetected]).GeneratedTotal = 0 ∧
    (applyOps resetOptical [OpticalOp.countScintillationSc,
        OpticalOp.countDetected]).BulkAbsTotal = 0 :=
  reachable_never_triggers_derivation
    (applyOps resetOptical
      [OpticalOp.countScintillationSc, OpticalOp.countDetected])
    resetInput resetSc resetSc
    ⟨[OpticalOp.countScintillationSc, OpticalOp.countDetected], rfl⟩

/-- Counterexample for claim C1 as stated: at a step whose
track-termination process is bulk absorption (`endproc =
"OpAbsorption"`) and whose post-step status is a geometry boundary with
boundary outcome `Detection`, `CheckBoundaryStatus` increments two
terminal counters in the same invocation (`BulkAbsZnS` and `Detected`),
so the bulk-absorption branch does not take precedence and more than one
terminal counter changes. -/
theorem boundary_two_terminal_counters_counterexample :
    terminalIncrements resetOptical
        (checkBoundaryStatus
          { baseStep with
            endproc := "OpAbsorption"
            volumeNamePreStep := "ZnS"
            stepStatus := StepStatus.fGeomBoundary
            boundaryStatus := BoundaryStatus.Detection } resetOptical) = 2 ∧
      (checkBoundaryStatus
          { baseStep with
            endproc := "OpAbsorption"
            volumeNamePreStep := "ZnS"
            stepStatus := StepStatus.fGeomBoundary
            boundaryStatus := BoundaryStatus.Detection }
          resetOptical).BulkAbsZnS = 1 ∧
      (checkBoundaryStatus
          { baseStep with
            endproc := "OpAbsorption"
            volumeNamePreStep := "ZnS"
            stepStatus := StepStatus.fGeomBoundary
            boundaryStatus := BoundaryStatus.Detection }
          resetOptical).Detected = 1 := by
  refine ⟨?_, ?_, ?_⟩ <;>
    simp [checkBoundaryStatus, terminalIncrements, resetOptical, baseStep]

/-- Claim C1 (amended): provided a step whose track-termination process
is bulk absorption never carries a geometry-boundary post-step status
(which the transport engine guarantees, since a boundary-limited step is
defined by transportation), `CheckBoundaryStatus` increments at most one
terminal counter per invocation, and on a bulk-absorption step exactly
one bulk-absorbed counter (ZnS if the pre-step volume is ZnS, otherwise
Sc) changes and nothing else in the tally does.  Without that proviso
the bulk branch and the boundary switch are independent and can both
fire (see the counterexample). -/
theorem boundary_at_most_one_terminal_counter (d : StepData)
    (s : RunTallyOptical)
    (h : d.endproc = "OpAbsorption" →
      d.stepStatus ≠ StepStatus.fGeomBoundary) :
    terminalIncrements s (checkBoundaryStatus d s) ≤ 1 ∧
    (d.endproc = "OpAbsorption" →
      (d.volumeNamePreStep = "ZnS" ∧
        checkBoundaryStatus d s =
          { s with BulkAbsZnS := s.BulkAbsZnS + 1 }) ∨
      (d.volumeNamePreStep ≠ "ZnS" ∧
        checkBoundaryStatus d s =
          { s with BulkAbsSc := s.BulkAbsSc + 1 })) := by
  constructor
  · by_cases hp : d.endproc = "OpAbsorption"
    · have hng := h hp
      unfold checkBoundaryStatus
      rw [if_pos hp, if_neg hng]
      split_ifs <;> simp [terminalIncrements]
    · unfold checkBoundaryStatus
      rw [if_neg hp]
      by_cases hg : d.stepStatus = StepStatus.fGeomBoundary
      · rw [if_pos hg]
        cases d.boundaryStatus <;>
          first
            | (simp [terminalIncrements]; omega)
            | (split_ifs <;> simp [terminalIncrements])
      · rw [if_neg hg]
        simp [terminalIncrements]
  · intro hp
    have hng := h hp
    unfold checkBoundaryStatus
    rw [if_pos hp, if_neg hng]
    by_cases hz : d.volumeNamePreStep = "ZnS"
    · exact Or.inl ⟨hz, by rw [if_pos hz]⟩
    · exact Or.inr ⟨hz, by rw [if_neg hz]⟩

/-- Witness for the amended claim C1 at a concrete bulk-absorption step
inside the scintillator on a non-boundary step. -/
theorem boundary_at_most_one_terminal_counter_witness :
    terminalIncrements resetOptical
        (checkBoundaryStatus
          { baseStep with endproc := "OpAbsorption" } resetOptical) ≤ 1 ∧
      (({ baseStep with endproc := "OpAbsorption" } : StepData).endproc =
          "OpAbsorption" →
        (({ baseStep with endproc := "OpAbsorption" } :
              StepData).volumeNamePreStep = "ZnS" ∧
          checkBoundaryStatus
              { baseStep with endproc := "OpAbsorption" } resetOptical =
            { resetOptical with
              BulkAbsZnS := resetOptical.BulkAbsZnS + 1 }) ∨
        (({ baseStep with endproc := "OpAbsorption" } :
              StepData).volumeNamePreStep ≠ "ZnS" ∧
          checkBoundaryStatus
              { baseStep with endproc := "OpAbsorption" } resetOptical =
            { resetOptical with
              BulkAbsSc := resetOptical.BulkAbsSc + 1 })) :=
  boundary_at_most_one_terminal_counter
    { baseStep with endproc := "OpAbsorption" } resetOptical
    (fun _ => by decide)

/-- Counterexample for claim C8 as stated: on an optical photon's FIRST
step taken while the photon-tracking flag is false, the stepping action
still records the photon's birth before the track dies: besides Killed,
the ScintillationSc creation counter is incremented and the
birth-wavelength and creation-angle sequences each receive an element,
so counters and sequences other than Killed are modified. -/
theorem killed_first_step_counterexample :
    (userSteppingAction { baseStep with stepNo := 1 } false
        resetOptical).1.Killed = 1 ∧
      (userSteppingAction { baseStep with stepNo := 1 } false
          resetOptical).1.ScintillationSc = 1 ∧
      (userSteppingAction { baseStep with stepNo := 1 } false
          resetOptical).1.BirthWavelength = [1240 / 4] ∧
      (userSteppingAction { baseStep with stepNo := 1 } false
          resetOptical).1.Angle_creation = [30] := by
  have hsc : ¬ ("Scintillation" = "Cerenkov") := by decide
  have hsz : ¬ ("Scintillator" = "ZnS") := by decide
  refine ⟨?_, ?_, ?_, ?_⟩ <;>
    norm_num [userSteppingAction, setPhotonBirthInformation,
      countScintillation, countCerenkov, resetOptical, baseStep, hsc,
      hsz]

/-- Claim C8 (amended): for every optical-photon step taken while the
photon-tracking flag is false, classification (`CheckBoundaryStatus`) is
skipped and the track is terminated immediately; on every such step
other than the track's first (`stepNo ≠ 1`), only the Killed counter is
incremented and nothing else in the optical statistics record changes.
On the first step, the birth information (creation counters, birth
wavelength, creation angle) is still recorded in the same invocation
(see the counterexample). -/
theorem killed_step_only_increments_killed (d : StepData)
    (s : RunTallyOptical) (h1 : d.particleName = "opticalphoton")
    (h2 : d.stepNo ≠ 1) :
    userSteppingAction d false s =
      ({ s with Killed := s.Killed + 1 }, TrackStatus.fStopAndKill) := by
  unfold userSteppingAction
  simp [h1, h2]

/-- Witness for the amended claim C8 at a concrete non-first photon step
with tracking disabled. -/
theorem killed_step_only_increments_killed_witness :
    userSteppingAction baseStep false resetOptical =
      ({ resetOptical with Killed := resetOptical.Killed + 1 },
        TrackStatus.fStopAndKill) :=
  killed_step_only_increments_killed baseStep resetOptical rfl
    (by decide)

/-- Counterexample for claim C10 as stated: a seven-argument invocation
(`argc = 7`, one argument beyond the documented grammar) with a valid MT
flag is accepted as a batch run — the extra argument is ignored, the
explicit thread count is not read (it is only read when `argc == 6`),
and no fatal abort is raised — so a wrong argument count does not always
fatally abort. -/
theorem cli_seven_args_accepted_counterexample :
    parseCmdLine
        ["OpticalSimulation", "out", "100", "run.mac", "ON", "4",
          "extra"] =
      MainOutcome.batch "out" "100" "run.mac" true none ∧
    raisesFatalException
        (parseCmdLine
          ["OpticalSimulation", "out", "100", "run.mac", "ON", "4",
            "extra"]) = false := by
  constructor <;> rfl

/-- Claim C10 (amended): the command-line interface accepts
`program outputFileBaseName [nEvents macroFile MT(ON|OFF) [threadCount]]`
with the proviso that any argument count of five or more is accepted
(arguments beyond the sixth are ignored, and the thread count is read
only when the count is exactly six).  An invocation missing the
output-file argument raises a fatal exception and returns exit code 1; a
malformed MT flag (neither ON nor OFF), or an argument count of three or
four, fatally aborts. -/
theorem cli_argument_dispatch (argv : List String) :
    (argv.length < 2 →
      parseCmdLine argv = MainOutcome.missingArgs ∧
        mainReturnCode (parseCmdLine argv) = 1 ∧
        raisesFatalException (parseCmdLine argv) = true) ∧
    (argv.length = 2 →
      parseCmdLine argv = MainOutcome.visMode (argv.getD 1 "")) ∧
    (argv.length = 3 ∨ argv.length = 4 →
      parseCmdLine argv = MainOutcome.fatalArgCount ∧
        raisesFatalException (parseCmdLine argv) = true) ∧
    (5 ≤ argv.length → argv.getD 4 "" ≠ "ON" → argv.getD 4 "" ≠ "OFF" →
      parseCmdLine argv = MainOutcome.fatalMT ∧
        raisesFatalException (parseCmdLine argv) = true) ∧
    (5 ≤ argv.length → argv.getD 4 "" = "ON" →
      parseCmdLine argv =
        MainOutcome.batch (argv.getD 1 "") (argv.getD 2 "")
          (argv.getD 3 "") true
          (if argv.length = 6 then some (argv.getD 5 "") else none) ∧
        raisesFatalException (parseCmdLine argv) = false) ∧
    (5 ≤ argv.length → argv.getD 4 "" = "OFF" →
      parseCmdLine argv =
        MainOutcome.batch (argv.getD 1 "") (argv.getD 2 "")
          (argv.getD 3 "") false none ∧
        raisesFatalException (parseCmdLine argv) = false) := by
  refine ⟨?_, ?_, ?_, ?_, ?_, ?_⟩
  · intro h
    simp [parseCmdLine, h, mainReturnCode, raisesFatalException]
  · intro h
    simp [parseCmdLine, h, raisesFatalException]
  · intro h
    rcases h with h | h <;>
      simp [parseCmdLine, h, raisesFatalException]
  · intro h5 hon hoff
    have h2 : ¬ argv.length < 2 := by omega
    have hne2 : ¬ argv.length = 2 := by omega
    simp only [parseCmdLine]
    rw [if_neg h2, if_neg hne2, if_pos h5, if_neg hon, if_neg hoff]
    exact ⟨rfl, rfl⟩
  · intro h5 hon
    have h2 : ¬ argv.length < 2 := by omega
    have hne2 : ¬ argv.length = 2 := by omega
    simp only [parseCmdLine]
    rw [if_neg h2, if_neg hne2, if_pos h5, if_pos hon]
    exact ⟨rfl, rfl⟩
  · intro h5 hoff
    have h2 : ¬ argv.length < 2 := by omega
    have hne2 : ¬ argv.length = 2 := by omega
    have hon : ¬ (argv.getD 4 "" = "ON") := by
      rw [hoff]; decide
    simp only [parseCmdLine]
    rw [if_neg h2, if_neg hne2, if_pos h5, if_neg hon, if_pos hoff]
    exact ⟨rfl, rfl⟩

/-- Witness for the amended claim C10 on a five-argument MT-OFF
invocation. -/
theorem cli_argument_dispatch_witness :
    parseCmdLine ["OpticalSimulation", "out", "100", "run.mac", "OFF"] =
      MainOutcome.batch "out" "100" "run.mac" false none ∧
    raisesFatalException
        (parseCmdLine
          ["OpticalSimulation", "out", "100", "run.mac", "OFF"]) =
      false :=
  (cli_argument_dispatch
      ["OpticalSimulation", "out", "100", "run.mac", "OFF"]).2.2.2.2.2
    (by decide) rfl

end OpticalSim
